import Mathlib

/-!
Shallow embedding of `src/app.py` (a Streamlit single-page app that sends a
persona-conditioned prompt to an external chat-completion endpoint).

The embedding models:
  * the static catalog `EXPERTS` (a Python dict, insertion-ordered) as an
    association list;
  * `get_llm_response` as a pure function parameterised by the external
    chat-completion call (`callLLM`) and by the environment's API key
    (`os.getenv("OPENAI_API_KEY")` becomes an `Option String` argument);
    exceptions raised by the external call are modelled as `Except.error`;
  * the observable effects towards the external provider (client
    construction and the completion call) as an event trace;
  * the catalog as explicitly threaded state, so that (non-)mutation of the
    dict by any operation is a provable statement rather than a convention;
  * the submit-button branch of `main` (`main_submit`), including its
    empty-input guard `if not user_input.strip()`.
-/

namespace App

/-- One entry of the `EXPERTS` dict: `{"name": ..., "system_message": ...}`. -/
structure Expert where
  name : String
  system_message : String
deriving DecidableEq, Repr

/-- The `EXPERTS` table of `src/app.py`, in declaration order. -/
def EXPERTS : List (String × Expert) :=
  [ ("A", { name := "データサイエンティスト",
            system_message := "データサイエンティスト。データ分析・機械学習・統計に精通。データと統計的根拠を示して説明。" }),
    ("B", { name := "ソフトウェアエンジニア",
            system_message := "ソフトウェアエンジニア。プログラミング・システム設計・アーキテクチャに精通。コード例と実装方法を示して説明。" }),
    ("C", { name := "マーケティングスペシャリスト",
            system_message := "マーケティングスペシャリスト。ブランディング・デジタルマーケティング・戦略に精通。市場動向を考慮した実践的な施策を提案。" }),
    ("D", { name := "財務アナリスト",
            system_message := "財務アナリスト。財務分析・投資判断・予算管理に精通。数値・財務指標を使い、リスクとリターンを考慮して説明。" }) ]

/-- `EXPERTS.get(key)`: Python `dict.get` returns the value or `None`,
and never raises. -/
def expertsLookup (experts : List (String × Expert)) (key : String) : Option Expert :=
  (experts.find? fun p => p.1 == key).map Prod.snd

/-- `list(EXPERTS.keys())`: the keys in declaration order. -/
def expertKeys (experts : List (String × Expert)) : List String :=
  experts.map Prod.fst

/-- A LangChain message: `SystemMessage(content=...)` or `HumanMessage(content=...)`. -/
inductive Message
  | system (content : String)
  | human (content : String)
deriving DecidableEq, Repr

/-- The keyword arguments of the `ChatOpenAI(...)` constructor. -/
structure ChatParams where
  model : String
  temperature : ℚ
  max_tokens : ℕ
  api_key : String
deriving DecidableEq, Repr

/-- Observable effects towards the external provider: constructing the
`ChatOpenAI` client, and `llm.invoke(messages)`. -/
inductive Event
  | mkClient (params : ChatParams)
  | invokeLLM (params : ChatParams) (messages : List Message)
deriving DecidableEq, Repr

/-- The parameters carried by an `Event`. -/
def Event.params : Event → ChatParams
  | .mkClient p => p
  | .invokeLLM p _ => p

/-- The outcome of `get_llm_response`, one constructor per `return`
statement of the source function. -/
inductive ConsultationResult
  | success (text : String)
  | missingCredentials
  | unknownPersona
  | upstreamError (detail : String)
deriving DecidableEq, Repr

/-- The exact string returned by `get_llm_response` in each case. -/
def renderResult : ConsultationResult → String
  | .success t => t
  | .missingCredentials =>
      "エラー: OPENAI_API_KEYが環境変数に設定されていません。.envファイルにOPENAI_API_KEYを設定してください。"
  | .unknownPersona => "エラー: 無効な専門家が選択されました。"
  | .upstreamError d => "エラーが発生しました: " ++ d

/-- Python truthiness of `os.getenv("OPENAI_API_KEY")` in `if not api_key`:
`None` and the empty string are falsy. -/
def credentialsMissing : Option String → Bool
  | none => true
  | some s => s == ""

/-- The external chat-completion call. `Except.error m` models an exception
whose `str(e)` is `m`; `Except.ok t` models a response whose `.content` is `t`. -/
def ExternalCall : Type := ChatParams → List Message → Except String String

/-- `get_llm_response(user_input, expert_choice)` of `src/app.py`.

`callLLM` is the external completion call and `env_api_key` the value of
`os.getenv("OPENAI_API_KEY")`.  The result is the returned
`ConsultationResult`, the trace of external-provider events, and the
catalog state after the call (the function only ever reads the dict). -/
def get_llm_response (callLLM : ExternalCall) (env_api_key : Option String)
    (experts : List (String × Expert)) (user_input expert_choice : String) :
    ConsultationResult × List Event × List (String × Expert) :=
  if credentialsMissing env_api_key then
    (.missingCredentials, [], experts)
  else
    match expertsLookup experts expert_choice with
    | none => (.unknownPersona, [], experts)
    | some expert =>
      let api_key := env_api_key.getD ""
      let params : ChatParams :=
        { model := "gpt-4o-mini", temperature := 6/10, max_tokens := 1500,
          api_key := api_key }
      let messages : List Message :=
        [.system expert.system_message, .human user_input]
      match callLLM params messages with
      | .ok content =>
          (.success content, [.mkClient params, .invokeLLM params messages], experts)
      | .error e =>
          (.upstreamError e, [.mkClient params, .invokeLLM params messages], experts)

/-- Characters stripped by Python `str.strip()` (ASCII whitespace; the
inputs of interest contain no exotic Unicode spaces). -/
def pyIsSpace (c : Char) : Bool :=
  c == ' ' || c == '\t' || c == '\n' || c == '\r' ||
  c == Char.ofNat 11 || c == Char.ofNat 12

/-- Python `s.strip()`. -/
def pyStrip (s : String) : String :=
  String.mk (((s.toList.dropWhile pyIsSpace).reverse.dropWhile pyIsSpace).reverse)

/-- What the submit branch of `main` displays. -/
inductive SubmitOutcome
  | warning (msg : String)
  | answer (header : String) (body : String)
deriving DecidableEq, Repr

/-- The body of `main`'s `if st.button(...)` branch in `src/app.py`:
reject a whitespace-only input with a warning without calling
`get_llm_response`; otherwise call it and render the answer under the
header `"💬 {EXPERTS[expert_choice]['name']}からの回答"` (a `KeyError`
from that indexing is modelled as `Except.error`). -/
def main_submit (callLLM : ExternalCall) (env_api_key : Option String)
    (experts : List (String × Expert)) (user_input expert_choice : String) :
    Except String SubmitOutcome × List Event × List (String × Expert) :=
  if pyStrip user_input == "" then
    (.ok (.warning "⚠️ 質問を入力してください。"), [], experts)
  else
    let r := get_llm_response callLLM env_api_key experts user_input expert_choice
    match expertsLookup r.2.2 expert_choice with
    | none => (.error "KeyError", r.2.1, r.2.2)
    | some expert =>
        (.ok (.answer ("💬 " ++ expert.name ++ "からの回答") (renderResult r.1)),
         r.2.1, r.2.2)

/-- A whole session: the catalog state after a sequence of submit clicks,
each given as `(user_input, expert_choice)`. -/
def runSession (callLLM : ExternalCall) (env_api_key : Option String) :
    List (String × Expert) → List (String × String) → List (String × Expert)
  | experts, [] => experts
  | experts, (ui, ec) :: rest =>
      runSession callLLM env_api_key
        (main_submit callLLM env_api_key experts ui ec).2.2 rest

/-- The sidebar lines of `main`: a pure read of the catalog
(`f"**{key}. {expert['name']}**"` for each entry, in order). -/
def sidebarLines (experts : List (String × Expert)) : List String :=
  experts.map fun p => "**" ++ p.1 ++ ". " ++ p.2.name ++ "**"

/-- The fixed `ChatOpenAI` parameters for an API key. -/
def fixedParams (akey : String) : ChatParams :=
  { model := "gpt-4o-mini", temperature := 6/10, max_tokens := 1500,
    api_key := akey }

theorem get_llm_response_preserves_catalog (callLLM : ExternalCall)
    (env : Option String) (experts : List (String × Expert)) (ui ec : String) :
    (get_llm_response callLLM env experts ui ec).2.2 = experts := by
  unfold get_llm_response
  split
  · rfl
  · split
    · rfl
    · dsimp only
      split <;> rfl

theorem main_submit_preserves_catalog (callLLM : ExternalCall)
    (env : Option String) (experts : List (String × Expert)) (ui ec : String) :
    (main_submit callLLM env experts ui ec).2.2 = experts := by
  unfold main_submit
  split
  · rfl
  · dsimp only
    split <;> simp [get_llm_response_preserves_catalog]

/-- **C1.** For every valid persona key and every query text, with credentials
present, if the external chat-completion call returns text `T` then
`get_llm_response` returns `success T` verbatim, and the external call is
invoked exactly once, with exactly two messages: a system message carrying the
chosen persona's instruction string, then a user message carrying the query
text verbatim. -/
theorem C1_success_passthrough (k : String) (e : Expert)
    (hk : expertsLookup EXPERTS k = some e) (q T akey : String) (ha : akey ≠ "") :
    get_llm_response (fun _ _ => .ok T) (some akey) EXPERTS q k =
      (.success T,
       [.mkClient (fixedParams akey),
        .invokeLLM (fixedParams akey) [.system e.system_message, .human q]],
       EXPERTS) := by
  simp [get_llm_response, credentialsMissing, hk, ha, fixedParams]

/-- Concrete instance of C1: persona `"A"`, query `"What is regression?"`,
stubbed response `"Answer text"`. -/
theorem C1_success_passthrough_witness :
    get_llm_response (fun _ _ => .ok "Answer text") (some "sk-test") EXPERTS
        "What is regression?" "A" =
      (.success "Answer text",
       [.mkClient (fixedParams "sk-test"),
        .invokeLLM (fixedParams "sk-test")
          [.system "データサイエンティスト。データ分析・機械学習・統計に精通。データと統計的根拠を示して説明。",
           .human "What is regression?"]],
       EXPERTS) :=
  C1_success_passthrough "A"
    { name := "データサイエンティスト",
      system_message := "データサイエンティスト。データ分析・機械学習・統計に精通。データと統計的根拠を示して説明。" }
    (by decide) "What is regression?" "Answer text" "sk-test" (by decide)

/-- **C2.** If the external completion call raises an exception with message
`M`, `get_llm_response` catches it and returns the `upstreamError` failure
whose detail is exactly `M` (rendered as the string
`"エラーが発生しました: " ++ M`); no exception propagates, the function
returns a `ConsultationResult` in every case. -/
theorem C2_upstream_error_caught (k : String) (e : Expert)
    (hk : expertsLookup EXPERTS k = some e) (q akey M : String) (ha : akey ≠ "") :
    get_llm_response (fun _ _ => .error M) (some akey) EXPERTS q k =
      (.upstreamError M,
       [.mkClient (fixedParams akey),
        .invokeLLM (fixedParams akey) [.system e.system_message, .human q]],
       EXPERTS) ∧
    renderResult (get_llm_response (fun _ _ => .error M) (some akey) EXPERTS q k).1 =
      "エラーが発生しました: " ++ M := by
  constructor
  · simp [get_llm_response, credentialsMissing, hk, ha, fixedParams]
  · simp [get_llm_response, credentialsMissing, hk, ha, renderResult]

/-- Concrete instance of C2 (the spec's P6): persona `"B"`, query `"x"`,
stubbed exception `"rate limited"`. -/
theorem C2_upstream_error_caught_witness :
    get_llm_response (fun _ _ => .error "rate limited") (some "sk-test") EXPERTS
        "x" "B" =
      (.upstreamError "rate limited",
       [.mkClient (fixedParams "sk-test"),
        .invokeLLM (fixedParams "sk-test")
          [.system "ソフトウェアエンジニア。プログラミング・システム設計・アーキテクチャに精通。コード例と実装方法を示して説明。",
           .human "x"]],
       EXPERTS) ∧
    renderResult (get_llm_response (fun _ _ => .error "rate limited")
        (some "sk-test") EXPERTS "x" "B").1 =
      "エラーが発生しました: " ++ "rate limited" :=
  C2_upstream_error_caught "B"
    { name := "ソフトウェアエンジニア",
      system_message := "ソフトウェアエンジニア。プログラミング・システム設計・アーキテクチャに精通。コード例と実装方法を示して説明。" }
    (by decide) "x" "sk-test" "rate limited" (by decide)

/-- **C4.** When the credentials are missing (`None`) or empty, the result is
`missingCredentials` and nothing else happens (no external event), for every
persona key and query text — the check runs first and short-circuits. -/
theorem C4_missing_credentials_first (callLLM : ExternalCall)
    (env : Option String) (h : credentialsMissing env = true) (ui ec : String) :
    get_llm_response callLLM env EXPERTS ui ec =
      (.missingCredentials, [], EXPERTS) := by
  simp [get_llm_response, h]

/-- Concrete instance of C4: empty token, unknown persona key `"Z"` and an
empty query at once — `missingCredentials` still wins. -/
theorem C4_missing_credentials_first_witness :
    credentialsMissing (some "") = true ∧
    expertsLookup EXPERTS "Z" = none ∧ pyStrip "" = "" ∧
    get_llm_response (fun _ _ => .ok "t") (some "") EXPERTS "" "Z" =
      (.missingCredentials, [], EXPERTS) :=
  ⟨by decide, by decide, by decide,
   C4_missing_credentials_first (fun _ _ => .ok "t") (some "") (by decide) "" "Z"⟩

/-- **C5.** With credentials present, a key not in the catalog yields
`unknownPersona` and the external call is never invoked (empty event trace). -/
theorem C5_unknown_persona (callLLM : ExternalCall) (akey : String)
    (ha : akey ≠ "") (ui z : String) (hz : expertsLookup EXPERTS z = none) :
    get_llm_response callLLM (some akey) EXPERTS ui z =
      (.unknownPersona, [], EXPERTS) := by
  simp [get_llm_response, credentialsMissing, ha, hz]

/-- Concrete instance of C5: key `"Z"` is not in the catalog. -/
theorem C5_unknown_persona_witness :
    expertsLookup EXPERTS "Z" = none ∧
    get_llm_response (fun _ _ => .ok "t") (some "sk-test") EXPERTS "hello" "Z" =
      (.unknownPersona, [], EXPERTS) :=
  ⟨by decide,
   C5_unknown_persona (fun _ _ => .ok "t") "sk-test" (by decide) "hello" "Z"
     (by decide)⟩

/-- Counterexample to **C3** as stated: with a valid persona key, a non-empty
API key and a whitespace-only query, `get_llm_response` itself does NOT
return an empty-query failure: it dispatches to the external call (the
trace is non-empty) and passes the whitespace query through as the user
message, returning the stubbed answer as a success. -/
theorem C3_counterexample :
    pyStrip "   " = "" ∧
    (get_llm_response (fun _ _ => .ok "Answer text") (some "sk-test") EXPERTS
        "   " "A").2.1 ≠ [] ∧
    (get_llm_response (fun _ _ => .ok "Answer text") (some "sk-test") EXPERTS
        "   " "A").1 = .success "Answer text" := by
  refine ⟨by decide, ?_, by decide⟩
  decide

/-- **C3 (amended).** The empty-query rejection lives in the presentation
layer, not in `get_llm_response`: for every input whose `strip()` is empty,
`main`'s submit branch shows the warning `"⚠️ 質問を入力してください。"`
and produces no external event, never calling `get_llm_response`. -/
theorem C3_empty_query_guard (callLLM : ExternalCall) (env : Option String)
    (ui ec : String) (h : pyStrip ui = "") :
    main_submit callLLM env EXPERTS ui ec =
      (.ok (.warning "⚠️ 質問を入力してください。"), [], EXPERTS) := by
  simp [main_submit, h]

/-- Concrete instance of the amended C3: a three-space query. -/
theorem C3_empty_query_guard_witness :
    pyStrip "   " = "" ∧
    main_submit (fun _ _ => .ok "unused") (some "sk-test") EXPERTS "   " "A" =
      (.ok (.warning "⚠️ 質問を入力してください。"), [], EXPERTS) :=
  ⟨by decide,
   C3_empty_query_guard (fun _ _ => .ok "unused") (some "sk-test") "   " "A"
     (by decide)⟩

/-- **C6.** Every event towards the external provider — client construction
and the completion call alike — uses the fixed parameters
`model = "gpt-4o-mini"`, `temperature = 0.6`, `max_tokens = 1500`,
regardless of persona choice, query content, or credentials. -/
theorem C6_fixed_dispatch_params (callLLM : ExternalCall) (env : Option String)
    (ui ec : String) (ev : Event)
    (hev : ev ∈ (get_llm_response callLLM env EXPERTS ui ec).2.1) :
    (Event.params ev).model = "gpt-4o-mini" ∧
    (Event.params ev).temperature = 6/10 ∧
    (Event.params ev).max_tokens = 1500 := by
  unfold get_llm_response at hev
  split at hev
  · simp at hev
  · split at hev
    · simp at hev
    · dsimp only at hev
      split at hev <;>
        · simp only [List.mem_cons, List.not_mem_nil, or_false] at hev
          rcases hev with h | h <;> subst h <;> exact ⟨rfl, rfl, rfl⟩

/-- Concrete instance of C6: the completion-call event of a successful
dispatch carries the fixed parameters. -/
theorem C6_fixed_dispatch_params_witness :
    (Event.params (Event.invokeLLM (fixedParams "sk-test")
        [.system "データサイエンティスト。データ分析・機械学習・統計に精通。データと統計的根拠を示して説明。",
         .human "q"])).model = "gpt-4o-mini" ∧
    (Event.params (Event.invokeLLM (fixedParams "sk-test")
        [.system "データサイエンティスト。データ分析・機械学習・統計に精通。データと統計的根拠を示して説明。",
         .human "q"])).temperature = 6/10 ∧
    (Event.params (Event.invokeLLM (fixedParams "sk-test")
        [.system "データサイエンティスト。データ分析・機械学習・統計に精通。データと統計的根拠を示して説明。",
         .human "q"])).max_tokens = 1500 :=
  C6_fixed_dispatch_params (fun _ _ => .ok "t") (some "sk-test") "q" "A" _
    (by
      rw [show (get_llm_response (fun _ _ => .ok "t") (some "sk-test") EXPERTS
            "q" "A").2.1 =
          [Event.mkClient (fixedParams "sk-test"),
           Event.invokeLLM (fixedParams "sk-test")
             [Message.system "データサイエンティスト。データ分析・機械学習・統計に精通。データと統計的根拠を示して説明。",
              Message.human "q"]] from rfl]
      exact List.mem_cons_of_mem _ (List.mem_cons_self _ _))

/-- **C7.** The catalog has exactly four entries, the keys are pairwise
distinct, and looking up the key of any entry yields exactly that entry's
persona, whose instruction string is non-empty. -/
theorem C7_catalog_wellformed :
    EXPERTS.length = 4 ∧ (expertKeys EXPERTS).Nodup ∧
    ∀ p ∈ EXPERTS, expertsLookup EXPERTS p.1 = some p.2 ∧
      p.2.system_message ≠ "" := by
  decide

/-- **C8.** Lookup is total and exception-free: for any key whatsoever it
returns either the catalog's persona for that key or an absent result; and
the key sequence is the declaration order `["A", "B", "C", "D"]`. -/
theorem C8_lookup_total_ordered :
    expertKeys EXPERTS = ["A", "B", "C", "D"] ∧
    ∀ k : String,
      (∃ e, expertsLookup EXPERTS k = some e ∧ (k, e) ∈ EXPERTS) ∨
      expertsLookup EXPERTS k = none := by
  refine ⟨by decide, fun k => ?_⟩
  cases hf : EXPERTS.find? (fun p => p.1 == k) with
  | none => right; simp [expertsLookup, hf]
  | some p =>
      left
      have hmem := List.mem_of_find?_eq_some hf
      have hkey : p.1 = k := by simpa using List.find?_some hf
      exact ⟨p.2, by simp [expertsLookup, hf], by rw [← hkey]; exact hmem⟩

theorem runSession_preserves_catalog (callLLM : ExternalCall)
    (env : Option String) (inputs : List (String × String)) :
    ∀ experts, runSession callLLM env experts inputs = experts := by
  induction inputs with
  | nil => intro experts; rfl
  | cons p rest ih =>
      intro experts
      obtain ⟨ui, ec⟩ := p
      rw [runSession, main_submit_preserves_catalog]
      exact ih experts

/-- **C9.** The catalog is immutable: after any sequence of submit
interactions (each of which runs the consultation and the presentation
reads), the threaded catalog state is exactly the initial `EXPERTS` table,
entry for entry; in particular every observed entry equals its initial
value, and pure reads such as the sidebar render identically. -/
theorem C9_catalog_immutable (callLLM : ExternalCall) (env : Option String)
    (inputs : List (String × String)) :
    runSession callLLM env EXPERTS inputs = EXPERTS ∧
    sidebarLines (runSession callLLM env EXPERTS inputs) =
      sidebarLines EXPERTS := by
  rw [runSession_preserves_catalog]
  exact ⟨rfl, rfl⟩

/-- **C10.** Validation failures are effect-free: whenever the result is
`missingCredentials` or `unknownPersona`, the event trace is empty — the
client was never constructed and the external call was invoked zero times. -/
theorem C10_validation_effect_free (callLLM : ExternalCall)
    (env : Option String) (ui ec : String)
    (h : (get_llm_response callLLM env EXPERTS ui ec).1 =
           .missingCredentials ∨
         (get_llm_response callLLM env EXPERTS ui ec).1 = .unknownPersona) :
    (get_llm_response callLLM env EXPERTS ui ec).2.1 = [] := by
  by_cases hc : credentialsMissing env = true
  · simp [get_llm_response, hc]
  · cases hl : expertsLookup EXPERTS ec with
    | none => simp [get_llm_response, hc, hl]
    | some ex =>
        exfalso
        rcases hcall : callLLM
            { model := "gpt-4o-mini", temperature := 6/10, max_tokens := 1500,
              api_key := env.getD "" }
            [.system ex.system_message, .human ui] with t | m <;>
          simp [get_llm_response, hc, hl, hcall] at h

/-- Concrete instance of C10: with no API key in the environment, the
result is `missingCredentials` and the trace is empty. -/
theorem C10_validation_effect_free_witness :
    (get_llm_response (fun _ _ => .ok "t") none EXPERTS "hello" "A").2.1 = [] :=
  C10_validation_effect_free (fun _ _ => .ok "t") none "hello" "A"
    (Or.inl (by decide))

end App
